import Mathlib

/-!
Verification development for the sentiments-analysis-api repository.

The file embeds, as executable Lean definitions:
* the text-normalization pipeline of `src/cleaning.py` (`clean_text` and its
  helper regular-expression substitutions), modelled character-by-character
  over `List Char`;
* the feedback-aggregation flow of `src/api.py` (`report_bad_prediction`)
  together with its database operations from `src/database.py`, modelled as
  a pure state-passing function over an explicit database state, with an
  event trace recording each store/notifier interaction;
* the notification retry loop `_send_with_retry` of `src/email_service.py`.

External collaborators that are not part of the repository (the NLTK
tokenizer/stemmer/lemmatizer, the Brevo delivery client) are modelled as
explicit function parameters; the NLTK English stopword corpus, which the
code loads as data, is embedded as the concrete word list it ships.
Character classes (`\w`, `\s`, `str.lower`, `str.isdigit`) are modelled on
their ASCII meaning, which is the only range the claims exercise.
-/

namespace SentimentsAnalysis

/-! ### Character classes -/

/-- ASCII whitespace, the characters matched by the regex class `\s`
and stripped by `str.strip()`. -/
def pyWhitespace (c : Char) : Bool :=
  c = ' ' || c = '\t' || c = '\n' || c = '\r' || c = '\x0b' || c = '\x0c'

def notWs (c : Char) : Bool := !pyWhitespace c

/-- The 26 ASCII uppercase letters. -/
def upperList : List Char :=
  ['A', 'B', 'C', 'D', 'E', 'F', 'G', 'H', 'I', 'J', 'K', 'L', 'M',
   'N', 'O', 'P', 'Q', 'R', 'S', 'T', 'U', 'V', 'W', 'X', 'Y', 'Z']

/-- `str.lower` on the ASCII range: an uppercase letter moves down 32 code
points, everything else is unchanged. -/
def pyLower (c : Char) : Char :=
  if c ∈ upperList then Char.ofNat (c.toNat + 32) else c

/-- The regex class `\w` on the ASCII range. -/
def isWordChar (c : Char) : Bool := c.isAlphanum || c = '_'

/-- `string.punctuation` together with the right single quotation mark that
`cleaning.py` line 36 appends to it. -/
def punctList : List Char :=
  ['!', '\"', '#', '$', '%', '&', '\x27', '(', ')', '*', '+', ',', '-', '.', '/',
   ':', ';', '<', '=', '>', '?', '@', '[', '\\', ']', '^', '_', '\x60', '\x7b',
   '|', '\x7d', '~', '’']

/-! ### Generic left-to-right regex substitution

`re.sub` scans the subject once, left to right; at each position it either
finds a (non-overlapping) match, emits the replacement and resumes after the
match, or copies the current character.  `subScan` implements that scan; the
fuel argument (initialised to the subject length) only serves structural
termination and is never exhausted because every matcher consumes at least
one character. -/

def subScan (tm : List Char → Option (List Char × List Char)) :
    Nat → List Char → List Char
  | 0, s => s
  | _ + 1, [] => []
  | fuel + 1, c :: rest =>
    match tm (c :: rest) with
    | some (rep, rest') => rep ++ subScan tm fuel rest'
    | none => c :: subScan tm fuel rest

def reSub (tm : List Char → Option (List Char × List Char)) (s : List Char) :
    List Char :=
  subScan tm s.length s

/-- Match a literal pattern at the head of the subject, returning the rest. -/
def stripPrefixChars : List Char → List Char → Option (List Char)
  | [], s => some s
  | _ :: _, [] => none
  | p :: ps, c :: cs => if c = p then stripPrefixChars ps cs else none

/-! ### Stage 1: URL removal, `re.sub(r'https?://\S+|www\.\S+', '', text)` -/

/-- Match a literal pattern followed by a non-empty maximal run of `\S`. -/
def tryPrefixRun (pat : List Char) (s : List Char) :
    Option (List Char × List Char) :=
  match stripPrefixChars pat s with
  | some r => if (r.takeWhile notWs).isEmpty then none
              else some ([], r.dropWhile notWs)
  | none => none

def tryUrl (s : List Char) : Option (List Char × List Char) :=
  match tryPrefixRun "https://".data s with
  | some p => some p
  | none =>
    match tryPrefixRun "http://".data s with
    | some p => some p
    | none => tryPrefixRun "www.".data s

def removeUrls (s : List Char) : List Char := reSub tryUrl s

/-! ### Stages 2-3: mention and hashtag removal, `@\w+` and `#\w+` -/

def tryTagRun (tag : Char) (s : List Char) : Option (List Char × List Char) :=
  match s with
  | [] => none
  | c :: rest =>
    if c = tag then
      if (rest.takeWhile isWordChar).isEmpty then none
      else some ([], rest.dropWhile isWordChar)
    else none

def removeMentions (s : List Char) : List Char := reSub (tryTagRun '@') s

def removeHashtags (s : List Char) : List Char := reSub (tryTagRun '#') s

/-! ### Stage 4: emoticon canonicalization

`happy_pattern = (?<!\S)(?:[:;=8][-]?[\)D\]}pP3]|<3)(?!\S)` and
`sad_pattern = (?<!\S)[:;=8][-]?[\(\[/{|c](?!\S)`.  The scan keeps a flag
recording whether the current position satisfies the look-behind `(?<!\S)`
(start of string, or the previous character of the original string is
whitespace); a matcher checks the look-ahead `(?!\S)` itself and returns the
remaining input without consuming the look-ahead character. -/

def happyPre : List Char := [':', ';', '=', '8']

def happySuf : List Char := [')', 'D', ']', '\x7d', 'p', 'P', '3']

def sadSuf : List Char := ['(', '[', '/', '\x7b', '|', 'c']

def lookaheadOk : List Char → Bool
  | [] => true
  | c :: _ => pyWhitespace c

def tryHappy (s : List Char) : Option (List Char) :=
  match s with
  | [] => none
  | c0 :: rest0 =>
    if happyPre.contains c0 then
      match rest0 with
      | [] => none
      | c1 :: rest1 =>
        if c1 = '-' then
          match rest1 with
          | [] => none
          | c2 :: rest2 =>
            if happySuf.contains c2 && lookaheadOk rest2 then some rest2 else none
        else if happySuf.contains c1 && lookaheadOk rest1 then some rest1 else none
    else if c0 = '<' then
      match rest0 with
      | [] => none
      | c1 :: rest1 => if c1 = '3' && lookaheadOk rest1 then some rest1 else none
    else none

def trySad (s : List Char) : Option (List Char) :=
  match s with
  | [] => none
  | c0 :: rest0 =>
    if happyPre.contains c0 then
      match rest0 with
      | [] => none
      | c1 :: rest1 =>
        if c1 = '-' then
          match rest1 with
          | [] => none
          | c2 :: rest2 =>
            if sadSuf.contains c2 && lookaheadOk rest2 then some rest2 else none
        else if sadSuf.contains c1 && lookaheadOk rest1 then some rest1 else none
    else none

def smileyScan (tryGlyph : List Char → Option (List Char)) (sentinel : List Char) :
    Nat → Bool → List Char → List Char
  | 0, _, s => s
  | _ + 1, _, [] => []
  | fuel + 1, atB, c :: rest =>
    if atB then
      match tryGlyph (c :: rest) with
      | some rest' => sentinel ++ smileyScan tryGlyph sentinel fuel false rest'
      | none => c :: smileyScan tryGlyph sentinel fuel (pyWhitespace c) rest
    else c :: smileyScan tryGlyph sentinel fuel (pyWhitespace c) rest

def subHappy (s : List Char) : List Char :=
  smileyScan tryHappy "tokensmileyhappy".data s.length true s

def subSad (s : List Char) : List Char :=
  smileyScan trySad "tokensmileysad".data s.length true s

/-! ### Stage 5: lowercasing -/

def mapLower (s : List Char) : List Char := s.map pyLower

/-! ### Stage 6: contraction expansion, literal `str.replace` in dict order -/

def tryLit (pat rep : List Char) (s : List Char) :
    Option (List Char × List Char) :=
  (stripPrefixChars pat s).map (fun r => (rep, r))

def replaceAll (pat rep : List Char) (s : List Char) : List Char :=
  reSub (tryLit pat rep) s

def expandContractions (s : List Char) : List Char :=
  replaceAll "don\x27t".data "do not".data
    (replaceAll "it\x27s".data "it is".data
      (replaceAll "won\x27t".data "will not".data
        (replaceAll "can\x27t".data "cannot".data
          (replaceAll "i\x27m".data "i am".data s))))

/-! ### Stages 7-8: whitespace collapse, strip, punctuation deletion -/

def tryWsRun (s : List Char) : Option (List Char × List Char) :=
  match s with
  | [] => none
  | c :: rest =>
    if pyWhitespace c then some ([' '], rest.dropWhile pyWhitespace) else none

def collapseWs (s : List Char) : List Char := reSub tryWsRun s

def stripChars (s : List Char) : List Char :=
  ((s.dropWhile pyWhitespace).reverse.dropWhile pyWhitespace).reverse

def deletePunct (s : List Char) : List Char :=
  s.filter (fun c => decide (c ∉ punctList))

/-- `text.replace("’", '')` on line 56; a no-op after `deletePunct`, kept for
fidelity. -/
def removeRSQuote (s : List Char) : List Char :=
  s.filter (fun c => decide (c ≠ '’'))

/-! ### Stage 9: tokenization

The source calls NLTK `word_tokenize` (external to the repository).  On the
punctuation-free, whitespace-collapsed text produced by the preceding stages
it reduces to splitting on whitespace, which is what the model does. -/

def wsSplitAux : List Char → List Char → List (List Char)
  | [], acc => if acc.isEmpty then [] else [acc.reverse]
  | c :: rest, acc =>
    if pyWhitespace c then
      if acc.isEmpty then wsSplitAux rest []
      else acc.reverse :: wsSplitAux rest []
    else wsSplitAux rest (c :: acc)

def word_tokenize (s : List Char) : List (List Char) := wsSplitAux s []

/-! ### Stage 10: stopword / digit / length filter -/

/-- The `words_to_keep` set of `cleaning.py` lines 13-21. -/
def words_to_keep : List String :=
  ["ok", "okay",
   "not", "no", "nor", "but",
   "don", "don\x27t", "ain", "aren", "aren\x27t", "couldn", "couldn\x27t",
   "didn", "didn\x27t", "doesn", "doesn\x27t", "hadn", "hadn\x27t", "hasn", "hasn\x27t",
   "haven", "haven\x27t", "isn", "isn\x27t", "mightn", "mightn\x27t", "mustn", "mustn\x27t",
   "needn", "needn\x27t", "shan", "shan\x27t", "shouldn", "shouldn\x27t", "wasn", "wasn\x27t",
   "weren", "weren\x27t", "won", "won\x27t", "wouldn", "wouldn\x27t"]

/-- The NLTK English stopword corpus (`stopwords.words('english')`), external
data loaded by the source, embedded as the concrete list it ships. -/
def nltk_stopwords : List String :=
  ["i", "me", "my", "myself", "we", "our", "ours", "ourselves", "you",
   "you\x27re", "you\x27ve", "you\x27ll", "you\x27d", "your", "yours", "yourself",
   "yourselves", "he", "him", "his", "himself", "she", "she\x27s", "her", "hers",
   "herself", "it", "it\x27s", "its", "itself", "they", "them", "their", "theirs",
   "themselves", "what", "which", "who", "whom", "this", "that", "that\x27ll",
   "these", "those", "am", "is", "are", "was", "were", "be", "been", "being",
   "have", "has", "had", "having", "do", "does", "did", "doing", "a", "an",
   "the", "and", "but", "if", "or", "because", "as", "until", "while", "of",
   "at", "by", "for", "with", "about", "against", "between", "into", "through",
   "during", "before", "after", "above", "below", "to", "from", "up", "down",
   "in", "out", "on", "off", "over", "under", "again", "further", "then",
   "once", "here", "there", "when", "where", "why", "how", "all", "any",
   "both", "each", "few", "more", "most", "other", "some", "such", "no",
   "nor", "not", "only", "own", "same", "so", "than", "too", "very", "s",
   "t", "can", "will", "just", "don", "don\x27t", "should", "should\x27ve",
   "now", "d", "ll", "m", "o", "re", "ve", "y", "ain", "aren", "aren\x27t",
   "couldn", "couldn\x27t", "didn", "didn\x27t", "doesn", "doesn\x27t", "hadn",
   "hadn\x27t", "hasn", "hasn\x27t", "haven", "haven\x27t", "isn", "isn\x27t", "ma",
   "mightn", "mightn\x27t", "mustn", "mustn\x27t", "needn", "needn\x27t", "shan",
   "shan\x27t", "shouldn", "shouldn\x27t", "wasn", "wasn\x27t", "weren", "weren\x27t",
   "won", "won\x27t", "wouldn", "wouldn\x27t"]

/-- `stop_words = set(stopwords.words('english')) - words_to_keep`. -/
def stop_words : List String :=
  nltk_stopwords.filter (fun w => decide (w ∉ words_to_keep))

/-- `str.isdigit` on the ASCII range: non-empty and all digits. -/
def pyIsDigit (t : List Char) : Bool := !t.isEmpty && t.all Char.isDigit

/-- The filter of the list comprehension, `cleaning.py` lines 63-69:
keep `word` iff it is not a stopword, not all-digits, and is longer than two
characters or belongs to `words_to_keep`. -/
def keepToken (t : List Char) : Bool :=
  decide (String.mk t ∉ stop_words) && !pyIsDigit t &&
    (decide (t.length > 2) || decide (String.mk t ∈ words_to_keep))

/-! ### The full pipeline -/

/-- The string-rewriting stages of `clean_text` (lines 41-56), i.e.
everything before tokenization. -/
def pipeline_pretoken (s : List Char) : List Char :=
  removeRSQuote (deletePunct (stripChars (collapseWs (expandContractions
    (mapLower (subSad (subHappy (removeHashtags (removeMentions
      (removeUrls s))))))))))

/-- The token list the filter of lines 63-69 examines. -/
def preFilterTokens (text : String) : List (List Char) :=
  word_tokenize (pipeline_pretoken text.data)

/-- `clean_text` of `src/cleaning.py`.  `processor` is the NLTK stemmer or
lemmatizer selected by the `processing` argument, an external collaborator
modelled as a function parameter; the source applies it to each token that
survives the filter. -/
def clean_text (processor : String → String) (text : String) : List String :=
  ((preFilterTokens text).filter keepToken).map (fun t => processor (String.mk t))

/-! ### Feedback aggregation (src/api.py, src/database.py)

The SQLite store is modelled as an explicit state: the append-only
`bad_predictions` table (a list in insertion order, rowids assigned by
AUTOINCREMENT), and the single-row `email_tracker` counter.  Timestamps are
server-assigned on insert; the model passes the current clock value `now`
explicitly.  The Brevo delivery call `send_bad_predictions_email` is an
external collaborator modelled as the parameter `deliver`. -/

structure BadPredictionRequest where
  text : String
  predicted_sentiment : String
  confidence_score : ℚ
deriving DecidableEq, Repr

structure Report where
  id : Nat
  text : String
  predicted_sentiment : String
  confidence_score : ℚ
  timestamp : Nat
deriving DecidableEq, Repr

structure DBState where
  reports : List Report
  report_count : Nat
  last_email_sent : Option Nat
deriving DecidableEq, Repr

/-- `init_database`: empty report table, counter row initialised to 0. -/
def init_database : DBState :=
  { reports := [], report_count := 0, last_email_sent := none }

/-- `insert_bad_prediction`: append one row, rowid assigned by AUTOINCREMENT
(with an append-only table this is one more than the number of rows), the
timestamp server-assigned; returns the new state and the rowid. -/
def insert_bad_prediction (st : DBState) (text sentiment : String)
    (confidence : ℚ) (now : Nat) : DBState × Nat :=
  let rowid := st.reports.length + 1
  ({ st with reports :=
      st.reports ++ [⟨rowid, text, sentiment, confidence, now⟩] }, rowid)

/-- `increment_email_counter`: `report_count = report_count + 1`, then read
the new value back. -/
def increment_email_counter (st : DBState) : DBState × Nat :=
  let c := st.report_count + 1
  ({ st with report_count := c }, c)

/-- Stable insertion into a timestamp-descending list: the new element goes
before the first strictly older element, hence after every element with the
same timestamp. -/
def insertDesc (r : Report) : List Report → List Report
  | [] => [r]
  | x :: xs =>
    if x.timestamp ≤ r.timestamp then r :: x :: xs else x :: insertDesc r xs

/-- `ORDER BY timestamp DESC` as executed through the `idx_timestamp` index:
timestamp descending, rows with equal timestamps in rowid (insertion)
order.  This is a stable descending sort. -/
def orderByTimestampDesc : List Report → List Report
  | [] => []
  | x :: xs => insertDesc x (orderByTimestampDesc xs)

/-- `get_recent_bad_predictions`: `ORDER BY timestamp DESC LIMIT limit`. -/
def get_recent_bad_predictions (st : DBState) (limit : Nat) : List Report :=
  (orderByTimestampDesc st.reports).take limit

/-- `update_last_email_sent`: set `last_email_sent = CURRENT_TIMESTAMP`. -/
def update_last_email_sent (st : DBState) (now : Nat) : DBState :=
  { st with last_email_sent := some now }

/-- One store/notifier interaction of the feedback endpoint, in the order it
happens. -/
inductive Event where
  | insert (rowid : Nat)
  | increment (newCount : Nat)
  | fetchRecent (rs : List Report)
  | notify (rs : List Report) (delivered : Bool)
  | updateLastEmail
deriving DecidableEq, Repr

def Event.isInsert : Event → Bool
  | .insert _ => true
  | _ => false

def Event.isIncrement : Event → Bool
  | .increment _ => true
  | _ => false

/-- The notifier invocations recorded in a trace, with their outcomes. -/
def notifyCalls (tr : List Event) : List (List Report × Bool) :=
  tr.filterMap fun e =>
    match e with
    | .notify rs b => some (rs, b)
    | _ => none

structure HTTPErrorModel where
  status : Nat
  detail : String
deriving DecidableEq, Repr

structure BadPredictionResponse where
  success : Bool
  message : String
  report_count : Nat
  email_sent : Option Bool
deriving DecidableEq, Repr

instance {ε α : Type} [DecidableEq ε] [DecidableEq α] : DecidableEq (Except ε α)
  | .ok a, .ok b =>
    if h : a = b then .isTrue (by rw [h]) else .isFalse (by simp [h])
  | .ok _, .error _ => .isFalse (by simp)
  | .error _, .ok _ => .isFalse (by simp)
  | .error e, .error f =>
    if h : e = f then .isTrue (by rw [h]) else .isFalse (by simp [h])

structure SubmitOut where
  state : DBState
  result : Except HTTPErrorModel BadPredictionResponse
  trace : List Event
deriving Repr

/-- The `/report-bad-prediction` handler `report_bad_prediction` of
`src/api.py` (lines 213-284): validate the sentiment label and the
confidence range (raising HTTP 400 before touching the store), insert the
report, increment the counter, and on a count that is a multiple of 3 fetch
the 3 most recent reports and hand them to the delivery function; a
successful delivery also updates `last_email_sent`.  The returned trace
records the store/notifier interactions in order. -/
def report_bad_prediction (deliver : List Report → Bool) (now : Nat)
    (st : DBState) (req : BadPredictionRequest) : SubmitOut :=
  if ¬ (req.predicted_sentiment = "positif" ∨ req.predicted_sentiment = "négatif") then
    { state := st,
      result := .error ⟨400, "Le sentiment doit être \x27positif\x27 ou \x27négatif\x27"⟩,
      trace := [] }
  else if ¬ (0 ≤ req.confidence_score ∧ req.confidence_score ≤ 1) then
    { state := st,
      result := .error ⟨400, "Le score de confiance doit être entre 0.0 et 1.0"⟩,
      trace := [] }
  else
    let ins := insert_bad_prediction st req.text req.predicted_sentiment
      req.confidence_score now
    let inc := increment_email_counter ins.1
    let count := inc.2
    if count % 3 = 0 then
      let recent := get_recent_bad_predictions inc.1 3
      let email_sent := deliver recent
      if email_sent then
        { state := update_last_email_sent inc.1 now,
          result := .ok ⟨true,
            "Signalement enregistré. Email envoyé à l\x27administrateur",
            count, some true⟩,
          trace := [.insert ins.2, .increment count, .fetchRecent recent,
            .notify recent true, .updateLastEmail] }
      else
        { state := inc.1,
          result := .ok ⟨true,
            "Signalement enregistré mais l\x27envoi de l\x27email a échoué",
            count, some false⟩,
          trace := [.insert ins.2, .increment count, .fetchRecent recent,
            .notify recent false] }
    else
      { state := inc.1,
        result := .ok ⟨true,
          "Signalement enregistré (" ++ toString count ++ "/3 avant envoi email)",
          count, some false⟩,
        trace := [.insert ins.2, .increment count] }

/-- Validity of a report request, exactly the two checks of lines 225-235. -/
def validReq (req : BadPredictionRequest) : Prop :=
  (req.predicted_sentiment = "positif" ∨ req.predicted_sentiment = "négatif") ∧
    0 ≤ req.confidence_score ∧ req.confidence_score ≤ 1

instance (req : BadPredictionRequest) : Decidable (validReq req) := by
  unfold validReq
  infer_instance

/-- Fold a batch of submissions through the endpoint, keeping only the
evolving database state. -/
def runBatch (deliver : List Report → Bool)
    (batch : List (BadPredictionRequest × Nat)) (st : DBState) : DBState :=
  batch.foldl (fun s p => (report_bad_prediction deliver p.2 s p.1).state) st

/-! ### Notification delivery retry (src/email_service.py)

`_send_with_retry` loops `attempt = 1 .. max_attempts`; each attempt's
outcome is an external API call, modelled by the `outcome` parameter.  An
HTTP 401 aborts immediately; a 429 (rate limit), any other API status, or
any other exception retries after sleeping `2 ** attempt` seconds while
attempts remain.  The model returns the overall result together with the
list of backoff waits performed. -/

inductive AttemptResult where
  | success
  | apiError (status : Nat)
  | exn
deriving DecidableEq, Repr

def retryLoop (outcome : Nat → AttemptResult) (max_attempts : Nat) :
    Nat → Nat → Bool × List Nat
  | _, 0 => (false, [])
  | attempt, fuel + 1 =>
    match outcome attempt with
    | .success => (true, [])
    | .apiError status =>
      if status = 401 then (false, [])
      else if attempt < max_attempts then
        let r := retryLoop outcome max_attempts (attempt + 1) fuel
        (r.1, 2 ^ attempt :: r.2)
      else (false, [])
    | .exn =>
      if attempt < max_attempts then
        let r := retryLoop outcome max_attempts (attempt + 1) fuel
        (r.1, 2 ^ attempt :: r.2)
      else (false, [])

/-- `_send_with_retry(email, configuration, max_attempts)`: the retry loop
starting at attempt 1.  The fuel equals `max_attempts`, which covers the
whole `range(1, max_attempts + 1)` iteration; with `max_attempts = 0` the
loop body never runs and the function falls through to `return False`. -/
def _send_with_retry (outcome : Nat → AttemptResult) (max_attempts : Nat) :
    Bool × List Nat :=
  retryLoop outcome max_attempts 1 max_attempts

/-! ### Derived definitions used in the claim statements -/

/-- The keep-list entries that contain no apostrophe: the only ones a
post-punctuation-stripping token can ever equal. -/
def words_to_keep_no_apostrophe : List String :=
  words_to_keep.filter (fun w => decide ('\x27' ∉ w.data))

/-- A cleaned string: no ASCII uppercase letter and no punctuation character
(`string.punctuation` plus the right single quotation mark). -/
def CleanStr (s : String) : Prop :=
  ∀ c ∈ s.data, c ∉ upperList ∧ c ∉ punctList

instance (s : String) : Decidable (CleanStr s) := by
  unfold CleanStr
  infer_instance

/-- The row `insert_bad_prediction` appends for an accepted request. -/
def acceptedRow (st : DBState) (req : BadPredictionRequest) (now : Nat) : Report :=
  ⟨st.reports.length + 1, req.text, req.predicted_sentiment,
    req.confidence_score, now⟩

/-- The database state after the insert and the counter increment of an
accepted request. -/
def postCountState (st : DBState) (req : BadPredictionRequest) (now : Nat) :
    DBState :=
  ⟨st.reports ++ [acceptedRow st req now], st.report_count + 1,
    st.last_email_sent⟩

/-- A report log where every timestamp ties (reports arriving within the
store's one-second timestamp resolution). -/
def tieReport (i : Nat) : Report := ⟨i, "tie", "positif", 1, 0⟩

def tieState : DBState :=
  ⟨[tieReport 1, tieReport 2, tieReport 3, tieReport 4, tieReport 5], 5, none⟩

def tieReq : BadPredictionRequest := ⟨"tie", "positif", 1⟩

/-- A report log with strictly increasing timestamps. -/
def monoState : DBState :=
  ⟨[⟨1, "a", "positif", 1, 1⟩, ⟨2, "b", "positif", 1, 2⟩], 2, none⟩

def monoReq : BadPredictionRequest := ⟨"c", "positif", 1⟩

/-! ### Lemmas about the text pipeline -/

theorem stripPrefixChars_mem :
    ∀ (pat s r : List Char), stripPrefixChars pat s = some r → ∀ c ∈ r, c ∈ s := by
  intro pat
  induction pat with
  | nil =>
    intro s r h c hc
    simp only [stripPrefixChars, Option.some.injEq] at h
    exact h ▸ hc
  | cons p ps ih =>
    intro s r h c hc
    cases s with
    | nil => simp [stripPrefixChars] at h
    | cons a as =>
      simp only [stripPrefixChars] at h
      by_cases hap : a = p
      · rw [if_pos hap] at h
        exact List.mem_cons_of_mem a (ih as r h c hc)
      · rw [if_neg hap] at h
        cases h

theorem mem_subScan {P : Char → Prop}
    (tm : List Char → Option (List Char × List Char))
    (htm : ∀ s rep rest', tm s = some (rep, rest') →
      (∀ c ∈ rep, P c) ∧ ∀ c ∈ rest', c ∈ s) :
    ∀ (fuel : Nat) (s : List Char), (∀ c ∈ s, P c) →
      ∀ c ∈ subScan tm fuel s, P c := by
  intro fuel
  induction fuel with
  | zero =>
    intro s hs c hc
    simpa only [subScan] using hs c hc
  | succ n ih =>
    intro s hs c hc
    cases s with
    | nil => simp [subScan] at hc
    | cons a rest =>
      cases htm' : tm (a :: rest) with
      | none =>
        simp only [subScan, htm'] at hc
        rcases List.mem_cons.1 hc with h | h
        · exact h ▸ hs a (List.mem_cons_self a rest)
        · exact ih rest (fun x hx => hs x (List.mem_cons_of_mem a hx)) c h
      | some pr =>
        obtain ⟨rep, rest'⟩ := pr
        simp only [subScan, htm'] at hc
        rcases List.mem_append.1 hc with h | h
        · exact (htm _ _ _ htm').1 c h
        · exact ih rest' (fun x hx => hs x ((htm _ _ _ htm').2 x hx)) c h

theorem mem_reSub {P : Char → Prop}
    (tm : List Char → Option (List Char × List Char))
    (htm : ∀ s rep rest', tm s = some (rep, rest') →
      (∀ c ∈ rep, P c) ∧ ∀ c ∈ rest', c ∈ s)
    (s : List Char) (hs : ∀ c ∈ s, P c) : ∀ c ∈ reSub tm s, P c :=
  mem_subScan tm htm s.length s hs

theorem pyLower_not_upper (c : Char) : pyLower c ∉ upperList := by
  unfold pyLower
  by_cases h : c ∈ upperList
  · rw [if_pos h]
    fin_cases h <;> decide
  · rw [if_neg h]
    exact h

theorem mapLower_not_upper (s : List Char) : ∀ c ∈ mapLower s, c ∉ upperList := by
  intro c hc
  obtain ⟨a, _, rfl⟩ := List.mem_map.1 hc
  exact pyLower_not_upper a

theorem replaceAll_not_upper (pat rep s : List Char)
    (hrep : ∀ c ∈ rep, c ∉ upperList) (hs : ∀ c ∈ s, c ∉ upperList) :
    ∀ c ∈ replaceAll pat rep s, c ∉ upperList := by
  refine mem_reSub _ ?_ s hs
  intro u rp r h
  unfold tryLit at h
  cases hm : stripPrefixChars pat u with
  | none => rw [hm] at h; cases h
  | some r0 =>
    rw [hm] at h
    simp only [Option.map_some', Option.some.injEq, Prod.mk.injEq] at h
    obtain ⟨hrp, hr⟩ := h
    subst hrp
    subst hr
    exact ⟨hrep, stripPrefixChars_mem pat u r0 hm⟩

theorem expandContractions_not_upper (s : List Char)
    (hs : ∀ c ∈ s, c ∉ upperList) :
    ∀ c ∈ expandContractions s, c ∉ upperList := by
  unfold expandContractions
  refine replaceAll_not_upper _ _ _ (by decide) ?_
  refine replaceAll_not_upper _ _ _ (by decide) ?_
  refine replaceAll_not_upper _ _ _ (by decide) ?_
  refine replaceAll_not_upper _ _ _ (by decide) ?_
  exact replaceAll_not_upper _ _ _ (by decide) hs

theorem collapseWs_not_upper (s : List Char) (hs : ∀ c ∈ s, c ∉ upperList) :
    ∀ c ∈ collapseWs s, c ∉ upperList := by
  refine mem_reSub _ ?_ s hs
  intro u rp r h
  unfold tryWsRun at h
  cases u with
  | nil => cases h
  | cons a as =>
    cases hw : pyWhitespace a with
    | false => simp only [hw, Bool.false_eq_true, if_false] at h; cases h
    | true =>
      simp only [hw, if_true, Option.some.injEq, Prod.mk.injEq] at h
      obtain ⟨hrp, hr⟩ := h
      subst hrp
      subst hr
      constructor
      · intro c hc
        rcases List.mem_singleton.1 hc with rfl
        decide
      · intro c hc
        exact List.mem_cons_of_mem a ((List.dropWhile_sublist _).subset hc)

theorem stripChars_subset (s : List Char) : ∀ c ∈ stripChars s, c ∈ s := by
  intro c hc
  unfold stripChars at hc
  rw [List.mem_reverse] at hc
  have h1 := (List.dropWhile_sublist (l := (s.dropWhile pyWhitespace).reverse)
    (p := pyWhitespace)).subset hc
  rw [List.mem_reverse] at h1
  exact (List.dropWhile_sublist (l := s) (p := pyWhitespace)).subset h1

theorem deletePunct_not_punct (s : List Char) :
    ∀ c ∈ deletePunct s, c ∉ punctList := by
  intro c hc
  have := (List.mem_filter.1 hc).2
  simpa using this

theorem deletePunct_subset (s : List Char) : ∀ c ∈ deletePunct s, c ∈ s := by
  intro c hc
  exact (List.mem_filter.1 hc).1

theorem removeRSQuote_subset (s : List Char) : ∀ c ∈ removeRSQuote s, c ∈ s := by
  intro c hc
  exact (List.mem_filter.1 hc).1

theorem wsSplitAux_mem :
    ∀ (s acc : List Char) (t : List Char), t ∈ wsSplitAux s acc →
      ∀ c ∈ t, c ∈ s ∨ c ∈ acc := by
  intro s
  induction s with
  | nil =>
    intro acc t ht c hc
    by_cases he : acc.isEmpty
    · simp [wsSplitAux, he] at ht
    · simp only [wsSplitAux, he, Bool.false_eq_true, if_false,
        List.mem_singleton] at ht
      subst ht
      exact Or.inr (List.mem_reverse.1 hc)
  | cons a rest ih =>
    intro acc t ht c hc
    by_cases hw : pyWhitespace a
    · by_cases he : acc.isEmpty
      · simp only [wsSplitAux, hw, he, if_true] at ht
        rcases ih [] t ht c hc with h | h
        · exact Or.inl (List.mem_cons_of_mem a h)
        · cases h
      · simp only [wsSplitAux, hw, he, Bool.false_eq_true, if_true, if_false,
          List.mem_cons] at ht
        rcases ht with rfl | ht
        · exact Or.inr (List.mem_reverse.1 hc)
        · rcases ih [] t ht c hc with h | h
          · exact Or.inl (List.mem_cons_of_mem a h)
          · cases h
    · simp only [wsSplitAux, hw, Bool.false_eq_true, if_false] at ht
      rcases ih (a :: acc) t ht c hc with h | h
      · exact Or.inl (List.mem_cons_of_mem a h)
      · rcases List.mem_cons.1 h with h | h
        · exact Or.inl (by rw [h]; exact List.mem_cons_self a rest)
        · exact Or.inr h

theorem word_tokenize_mem (s : List Char) (t : List Char)
    (ht : t ∈ word_tokenize s) : ∀ c ∈ t, c ∈ s := by
  intro c hc
  rcases wsSplitAux_mem s [] t ht c hc with h | h
  · exact h
  · cases h

/-- Every character of the string handed to the tokenizer is neither an
ASCII uppercase letter nor a punctuation character. -/
theorem pipeline_pretoken_clean (s : List Char) :
    ∀ c ∈ pipeline_pretoken s, c ∉ upperList ∧ c ∉ punctList := by
  intro c hc
  unfold pipeline_pretoken at hc
  have hpunct : c ∉ punctList :=
    deletePunct_not_punct _ c (removeRSQuote_subset _ c hc)
  refine ⟨?_, hpunct⟩
  have h1 := deletePunct_subset _ c (removeRSQuote_subset _ c hc)
  have h2 := stripChars_subset _ c h1
  have h3 := collapseWs_not_upper _ (expandContractions_not_upper _
    (mapLower_not_upper _)) c h2
  exact h3

theorem preFilterTokens_clean (text : String) (t : List Char)
    (ht : t ∈ preFilterTokens text) : ∀ c ∈ t, c ∉ upperList ∧ c ∉ punctList := by
  intro c hc
  exact pipeline_pretoken_clean text.data c
    (word_tokenize_mem _ t ht c hc)

/-! ### Lemmas about the feedback aggregator -/

theorem submit_invalid (deliver : List Report → Bool) (now : Nat)
    (st : DBState) (req : BadPredictionRequest) (h : ¬ validReq req) :
    ∃ e : HTTPErrorModel, e.status = 400 ∧
      report_bad_prediction deliver now st req = ⟨st, .error e, []⟩ := by
  by_cases hs : req.predicted_sentiment = "positif" ∨ req.predicted_sentiment = "négatif"
  · have hc : ¬ (0 ≤ req.confidence_score ∧ req.confidence_score ≤ 1) :=
      fun hcc => h ⟨hs, hcc⟩
    refine ⟨⟨400, "Le score de confiance doit être entre 0.0 et 1.0"⟩, rfl, ?_⟩
    unfold report_bad_prediction
    rw [if_neg (not_not_intro hs), if_pos hc]
  · refine ⟨⟨400, "Le sentiment doit être \x27positif\x27 ou \x27négatif\x27"⟩, rfl, ?_⟩
    unfold report_bad_prediction
    rw [if_pos hs]

theorem submit_nontrigger (deliver : List Report → Bool) (now : Nat)
    (st : DBState) (req : BadPredictionRequest) (h : validReq req)
    (h3 : ¬ (st.report_count + 1) % 3 = 0) :
    report_bad_prediction deliver now st req =
      ⟨postCountState st req now,
       .ok ⟨true, "Signalement enregistré (" ++ toString (st.report_count + 1) ++
         "/3 avant envoi email)", st.report_count + 1, some false⟩,
       [.insert (st.reports.length + 1), .increment (st.report_count + 1)]⟩ := by
  obtain ⟨hs, hc⟩ := h
  unfold report_bad_prediction
  rw [if_neg (not_not_intro hs), if_neg (not_not_intro hc)]
  simp only [insert_bad_prediction, increment_email_counter]
  rw [if_neg h3]
  rfl

theorem submit_trigger (deliver : List Report → Bool) (now : Nat)
    (st : DBState) (req : BadPredictionRequest) (h : validReq req)
    (h3 : (st.report_count + 1) % 3 = 0) :
    report_bad_prediction deliver now st req =
      (if deliver (get_recent_bad_predictions (postCountState st req now) 3) then
        ⟨⟨st.reports ++ [acceptedRow st req now], st.report_count + 1, some now⟩,
         .ok ⟨true, "Signalement enregistré. Email envoyé à l\x27administrateur",
           st.report_count + 1, some true⟩,
         [.insert (st.reports.length + 1), .increment (st.report_count + 1),
          .fetchRecent (get_recent_bad_predictions (postCountState st req now) 3),
          .notify (get_recent_bad_predictions (postCountState st req now) 3) true,
          .updateLastEmail]⟩
      else
        ⟨postCountState st req now,
         .ok ⟨true, "Signalement enregistré mais l\x27envoi de l\x27email a échoué",
           st.report_count + 1, some false⟩,
         [.insert (st.reports.length + 1), .increment (st.report_count + 1),
          .fetchRecent (get_recent_bad_predictions (postCountState st req now) 3),
          .notify (get_recent_bad_predictions (postCountState st req now) 3)
            false]⟩) := by
  obtain ⟨hs, hc⟩ := h
  unfold report_bad_prediction
  rw [if_neg (not_not_intro hs), if_neg (not_not_intro hc)]
  simp only [insert_bad_prediction, increment_email_counter,
    update_last_email_sent, get_recent_bad_predictions, postCountState,
    acceptedRow]
  rw [if_pos h3]

theorem notifyCalls_nontrigger_trace (a b : Nat) :
    notifyCalls [.insert a, .increment b] = [] := rfl

/-- Every step of the endpoint keeps the counter equal to the number of
report rows whenever it was equal before. -/
theorem submit_step_lockstep (deliver : List Report → Bool) (now : Nat)
    (st : DBState) (req : BadPredictionRequest)
    (h : st.report_count = st.reports.length) :
    (report_bad_prediction deliver now st req).state.report_count =
      (report_bad_prediction deliver now st req).state.reports.length := by
  by_cases hv : validReq req
  · by_cases h3 : (st.report_count + 1) % 3 = 0
    · rw [submit_trigger deliver now st req hv h3]
      cases hd : deliver (get_recent_bad_predictions (postCountState st req now) 3) with
      | true => simp [hd, acceptedRow, h]
      | false => simp [hd, postCountState, acceptedRow, h]
    · rw [submit_nontrigger deliver now st req hv h3]
      simp [postCountState, acceptedRow, h]
  · obtain ⟨e, _, heq⟩ := submit_invalid deliver now st req hv
    rw [heq]
    exact h

theorem runBatch_lockstep (deliver : List Report → Bool) :
    ∀ (batch : List (BadPredictionRequest × Nat)) (st0 : DBState),
      st0.report_count = st0.reports.length →
      (runBatch deliver batch st0).report_count =
        (runBatch deliver batch st0).reports.length := by
  intro batch
  induction batch with
  | nil => intro st0 h; simpa [runBatch] using h
  | cons p rest ih =>
    intro st0 h
    have hstep := submit_step_lockstep deliver p.2 st0 p.1 h
    have hfold : runBatch deliver (p :: rest) st0 =
        runBatch deliver rest (report_bad_prediction deliver p.2 st0 p.1).state := by
      simp [runBatch]
    rw [hfold]
    exact ih _ hstep

/-! ### Lemmas about the recent-report query -/

theorem insertDesc_eq_append (r : Report) (l : List Report)
    (h : ∀ x ∈ l, r.timestamp < x.timestamp) : insertDesc r l = l ++ [r] := by
  induction l with
  | nil => rfl
  | cons x xs ih =>
    have hx := h x (List.mem_cons_self x xs)
    unfold insertDesc
    rw [if_neg (by omega), ih (fun y hy => h y (List.mem_cons_of_mem x hy))]
    rfl

/-- On a log whose timestamps strictly increase with insertion order, the
`ORDER BY timestamp DESC` query returns exactly the reversed log. -/
theorem orderBy_of_strictly_increasing (l : List Report)
    (h : l.Pairwise (fun a b => a.timestamp < b.timestamp)) :
    orderByTimestampDesc l = l.reverse := by
  induction l with
  | nil => rfl
  | cons x xs ih =>
    rw [List.pairwise_cons] at h
    unfold orderByTimestampDesc
    rw [ih h.2,
      insertDesc_eq_append x xs.reverse (fun y hy => h.1 y (List.mem_reverse.1 hy)),
      List.reverse_cons]

/-- An accepted submission (any one whose result is a success response)
appends exactly the one new row, bumps the counter by one, logs the insert
before the increment, and returns a success response carrying the new
count. -/
theorem submit_accepted_shape (deliver : List Report → Bool) (now : Nat)
    (st : DBState) (req : BadPredictionRequest) (hv : validReq req) :
    (report_bad_prediction deliver now st req).state.report_count =
      st.report_count + 1 ∧
    (report_bad_prediction deliver now st req).state.reports =
      st.reports ++ [acceptedRow st req now] ∧
    (∃ rest, (report_bad_prediction deliver now st req).trace =
        .insert (st.reports.length + 1) :: .increment (st.report_count + 1) :: rest ∧
      ∀ e ∈ rest, e.isInsert = false ∧ e.isIncrement = false) ∧
    ∃ resp, (report_bad_prediction deliver now st req).result = .ok resp ∧
      resp.success = true ∧ resp.report_count = st.report_count + 1 := by
  by_cases h3 : (st.report_count + 1) % 3 = 0
  · rw [submit_trigger deliver now st req hv h3]
    split
    · refine ⟨rfl, rfl,
        ⟨[.fetchRecent (get_recent_bad_predictions (postCountState st req now) 3),
          .notify (get_recent_bad_predictions (postCountState st req now) 3) true,
          .updateLastEmail], rfl, ?_⟩, ⟨_, rfl, rfl, rfl⟩⟩
      intro e he
      simp only [List.mem_cons, List.not_mem_nil, or_false] at he
      rcases he with rfl | rfl | rfl <;> exact ⟨rfl, rfl⟩
    · refine ⟨rfl, rfl,
        ⟨[.fetchRecent (get_recent_bad_predictions (postCountState st req now) 3),
          .notify (get_recent_bad_predictions (postCountState st req now) 3) false],
         rfl, ?_⟩, ⟨_, rfl, rfl, rfl⟩⟩
      intro e he
      simp only [List.mem_cons, List.not_mem_nil, or_false] at he
      rcases he with rfl | rfl <;> exact ⟨rfl, rfl⟩
  · rw [submit_nontrigger deliver now st req hv h3]
    exact ⟨rfl, rfl, ⟨[], rfl, by intro e he; cases he⟩, ⟨_, rfl, rfl, rfl⟩⟩

/-! ## Claim theorems -/

/-- C2: the endpoint validates `predicted_sentiment ∈ {positif, négatif}` and
`confidence_score ∈ [0, 1]` and rejects invalid input with an HTTP 400
(ValidationError) before any persistence: the database state is unchanged
(no report row inserted, counter untouched) and no store interaction is
traced. -/
theorem invalid_report_rejected_before_persistence
    (deliver : List Report → Bool) (now : Nat) (st : DBState)
    (req : BadPredictionRequest) (h : ¬ validReq req) :
    (report_bad_prediction deliver now st req).state = st ∧
    (report_bad_prediction deliver now st req).trace = [] ∧
    ∃ e, (report_bad_prediction deliver now st req).result = .error e ∧
      e.status = 400 := by
  obtain ⟨e, he, heq⟩ := submit_invalid deliver now st req h
  rw [heq]
  exact ⟨rfl, rfl, e, rfl, he⟩

/-- C2 witness: a submission with `confidence_score = 3/2` is rejected with a
400 and the database state of a fresh install is untouched. -/
theorem invalid_report_rejected_before_persistence_witness :
    (report_bad_prediction (fun _ => true) 0 init_database
      ⟨"meh", "positif", mkRat 3 2⟩).state = init_database ∧
    (report_bad_prediction (fun _ => true) 0 init_database
      ⟨"meh", "positif", mkRat 3 2⟩).trace = [] ∧
    ∃ e, (report_bad_prediction (fun _ => true) 0 init_database
      ⟨"meh", "positif", mkRat 3 2⟩).result = .error e ∧ e.status = 400 :=
  invalid_report_rejected_before_persistence (fun _ => true) 0 init_database
    ⟨"meh", "positif", mkRat 3 2⟩ (by decide)

/-- C4: when the third-report notification fails to deliver, nothing is
rolled back: the endpoint still answers success with the incremented count,
the new row stays appended, the counter stays incremented, and the trace
shows exactly one notification attempt (the aggregator does not retry). -/
theorem delivery_failure_not_rolled_back (deliver : List Report → Bool)
    (now : Nat) (st : DBState) (req : BadPredictionRequest)
    (hv : validReq req) (h3 : (st.report_count + 1) % 3 = 0)
    (hd : deliver (get_recent_bad_predictions (postCountState st req now) 3) = false) :
    (report_bad_prediction deliver now st req).result =
      .ok ⟨true, "Signalement enregistré mais l\x27envoi de l\x27email a échoué",
        st.report_count + 1, some false⟩ ∧
    (report_bad_prediction deliver now st req).state.reports =
      st.reports ++ [acceptedRow st req now] ∧
    (report_bad_prediction deliver now st req).state.report_count =
      st.report_count + 1 ∧
    notifyCalls (report_bad_prediction deliver now st req).trace =
      [(get_recent_bad_predictions (postCountState st req now) 3, false)] := by
  rw [submit_trigger deliver now st req hv h3]
  split
  · next hcond => simp [hd] at hcond
  · exact ⟨rfl, rfl, rfl, rfl⟩

/-- C4 witness: with the counter at 2 and a delivery stub that always fails,
the third report is stored, counted as 3, reported as a success with
`email_sent = false`, and exactly one notification attempt is traced. -/
theorem delivery_failure_not_rolled_back_witness :
    (report_bad_prediction (fun _ => false) 9 ⟨[], 2, none⟩
      ⟨"bad", "négatif", 1⟩).result =
      .ok ⟨true, "Signalement enregistré mais l\x27envoi de l\x27email a échoué",
        3, some false⟩ ∧
    (report_bad_prediction (fun _ => false) 9 ⟨[], 2, none⟩
      ⟨"bad", "négatif", 1⟩).state.reports =
      [] ++ [acceptedRow ⟨[], 2, none⟩ ⟨"bad", "négatif", 1⟩ 9] ∧
    (report_bad_prediction (fun _ => false) 9 ⟨[], 2, none⟩
      ⟨"bad", "négatif", 1⟩).state.report_count = 3 ∧
    notifyCalls (report_bad_prediction (fun _ => false) 9 ⟨[], 2, none⟩
      ⟨"bad", "négatif", 1⟩).trace =
      [(get_recent_bad_predictions
        (postCountState ⟨[], 2, none⟩ ⟨"bad", "négatif", 1⟩ 9) 3, false)] :=
  delivery_failure_not_rolled_back (fun _ => false) 9 ⟨[], 2, none⟩
    ⟨"bad", "négatif", 1⟩ (by decide) (by decide) rfl

/-- C5: emoticon canonicalization runs before lowercasing and punctuation
stripping, so a happy glyph flanked by whitespace survives as the sentinel
word: for every choice of stemmer/lemmatizer, normalizing `" :) "` yields
exactly the processed happy sentinel token. -/
theorem happy_glyph_normalizes_to_sentinel (processor : String → String) :
    clean_text processor " :) " = [processor "tokensmileyhappy"] := rfl

/-- C7: a delivery that hits the rate limit (HTTP 429) on attempts 1 and 2
and succeeds on attempt 3 returns true overall, after exactly two
exponential-backoff waits of 2^1 = 2 and 2^2 = 4 seconds. -/
theorem rate_limit_retries_backoff_then_success (outcome : Nat → AttemptResult)
    (h1 : outcome 1 = .apiError 429) (h2 : outcome 2 = .apiError 429)
    (h3 : outcome 3 = .success) :
    _send_with_retry outcome 3 = (true, [2, 4]) := by
  simp [_send_with_retry, retryLoop, h1, h2, h3]

/-- C7 witness: the retry loop on a concrete outcome sequence 429, 429,
success returns `(true, [2, 4])`. -/
theorem rate_limit_retries_backoff_then_success_witness :
    _send_with_retry (fun n => if n ≤ 2 then .apiError 429 else .success) 3 =
      (true, [2, 4]) :=
  rate_limit_retries_backoff_then_success
    (fun n => if n ≤ 2 then .apiError 429 else .success) rfl rfl rfl

/-- C10: the emoticon recognizers accept glyphs beyond the spec's list:
whitespace-flanked `"8)"` and `";D"`, neither of which the spec enumerates,
both normalize to the happy sentinel token. -/
theorem extended_glyphs_normalize_to_sentinel (processor : String → String) :
    clean_text processor " 8) " = [processor "tokensmileyhappy"] ∧
    clean_text processor " ;D " = [processor "tokensmileyhappy"] := ⟨rfl, rfl⟩

/-- C1: starting from a counter at 0, three accepted submissions return the
counts 1, 2 and 3; the notifier is never invoked on the first and second
call, and the trigger fires exactly one notification attempt on the third
(when the count becomes a multiple of 3). -/
theorem three_submits_count_and_trigger (deliver : List Report → Bool)
    (t1 t2 t3 : Nat) (r1 r2 r3 : BadPredictionRequest) (st0 : DBState)
    (h0 : st0.report_count = 0) (h1 : validReq r1) (h2 : validReq r2)
    (h3 : validReq r3) :
    (∃ m1, (report_bad_prediction deliver t1 st0 r1).result =
      .ok ⟨true, m1, 1, some false⟩) ∧
    (∃ m2, (report_bad_prediction deliver t2
        (report_bad_prediction deliver t1 st0 r1).state r2).result =
      .ok ⟨true, m2, 2, some false⟩) ∧
    (∃ m3 b3, (report_bad_prediction deliver t3 (report_bad_prediction deliver t2
        (report_bad_prediction deliver t1 st0 r1).state r2).state r3).result =
      .ok ⟨true, m3, 3, some b3⟩) ∧
    notifyCalls (report_bad_prediction deliver t1 st0 r1).trace = [] ∧
    notifyCalls (report_bad_prediction deliver t2
      (report_bad_prediction deliver t1 st0 r1).state r2).trace = [] ∧
    (notifyCalls (report_bad_prediction deliver t3 (report_bad_prediction deliver t2
      (report_bad_prediction deliver t1 st0 r1).state r2).state r3).trace).length
      = 1 := by
  have hc1 : ¬ (st0.report_count + 1) % 3 = 0 := by rw [h0]; decide
  have e1 := submit_nontrigger deliver t1 st0 r1 h1 hc1
  have hv1 : (report_bad_prediction deliver t1 st0 r1).state.report_count = 1 := by
    rw [e1]
    simp only [postCountState]
    rw [h0]
  have hc2 : ¬ ((report_bad_prediction deliver t1 st0 r1).state.report_count + 1)
      % 3 = 0 := by
    rw [hv1]; decide
  have e2 := submit_nontrigger deliver t2 _ r2 h2 hc2
  have hv2 : (report_bad_prediction deliver t2
      (report_bad_prediction deliver t1 st0 r1).state r2).state.report_count = 2 := by
    rw [e2]
    simp only [postCountState]
    rw [hv1]
  have hc3 : ((report_bad_prediction deliver t2
      (report_bad_prediction deliver t1 st0 r1).state r2).state.report_count + 1)
      % 3 = 0 := by
    rw [hv2]
  have e3 := submit_trigger deliver t3 _ r3 h3 hc3
  refine ⟨⟨"Signalement enregistré (1/3 avant envoi email)", ?_⟩,
    ⟨"Signalement enregistré (2/3 avant envoi email)", ?_⟩, ?_, ?_, ?_, ?_⟩
  · rw [e1, h0]
    rfl
  · rw [e2, hv1]
    rfl
  · rw [e3]
    split
    · exact ⟨"Signalement enregistré. Email envoyé à l\x27administrateur", true,
        by rw [hv2]⟩
    · exact ⟨"Signalement enregistré mais l\x27envoi de l\x27email a échoué", false,
        by rw [hv2]⟩
  · rw [e1]
    rfl
  · rw [e2]
    rfl
  · rw [e3]
    split
    · rfl
    · rfl

/-- C1 witness: three identical valid reports against a fresh database with
an always-successful delivery stub. -/
theorem three_submits_count_and_trigger_witness :
    (∃ m1, (report_bad_prediction (fun _ => true) 10 init_database
      ⟨"bad", "positif", 1⟩).result = .ok ⟨true, m1, 1, some false⟩) ∧
    (∃ m2, (report_bad_prediction (fun _ => true) 11
        (report_bad_prediction (fun _ => true) 10 init_database
          ⟨"bad", "positif", 1⟩).state ⟨"bad", "positif", 1⟩).result =
      .ok ⟨true, m2, 2, some false⟩) ∧
    (∃ m3 b3, (report_bad_prediction (fun _ => true) 12
        (report_bad_prediction (fun _ => true) 11
          (report_bad_prediction (fun _ => true) 10 init_database
            ⟨"bad", "positif", 1⟩).state ⟨"bad", "positif", 1⟩).state
        ⟨"bad", "positif", 1⟩).result = .ok ⟨true, m3, 3, some b3⟩) ∧
    notifyCalls (report_bad_prediction (fun _ => true) 10 init_database
      ⟨"bad", "positif", 1⟩).trace = [] ∧
    notifyCalls (report_bad_prediction (fun _ => true) 11
      (report_bad_prediction (fun _ => true) 10 init_database
        ⟨"bad", "positif", 1⟩).state ⟨"bad", "positif", 1⟩).trace = [] ∧
    (notifyCalls (report_bad_prediction (fun _ => true) 12
      (report_bad_prediction (fun _ => true) 11
        (report_bad_prediction (fun _ => true) 10 init_database
          ⟨"bad", "positif", 1⟩).state ⟨"bad", "positif", 1⟩).state
      ⟨"bad", "positif", 1⟩).trace).length = 1 :=
  three_submits_count_and_trigger (fun _ => true) 10 11 12
    ⟨"bad", "positif", 1⟩ ⟨"bad", "positif", 1⟩ ⟨"bad", "positif", 1⟩
    init_database rfl (by decide) (by decide) (by decide)

/-- C3: `clean_text` is a total function (the embedding is a plain function,
so it never raises); it maps the empty string to the empty token list; and,
provided the external stemmer/lemmatizer maps clean strings to clean
strings, every emitted token is free of ASCII uppercase letters and of
punctuation characters. -/
theorem normalize_never_raises_lowercase_punctfree (processor : String → String)
    (hproc : ∀ s, CleanStr s → CleanStr (processor s)) :
    clean_text processor "" = [] ∧
    ∀ (text tok : String), tok ∈ clean_text processor text → CleanStr tok := by
  refine ⟨rfl, ?_⟩
  intro text tok htok
  unfold clean_text at htok
  obtain ⟨t, ht, rfl⟩ := List.mem_map.1 htok
  have ht' : t ∈ preFilterTokens text := List.mem_of_mem_filter ht
  exact hproc (String.mk t) (fun c hc => preFilterTokens_clean text t ht' c hc)

/-- C3 witness: with the identity processor, the empty string yields the
empty sequence and the token produced from `"GREAT movie!!"` is clean. -/
theorem normalize_never_raises_lowercase_punctfree_witness :
    clean_text (fun s => s) "" = [] ∧ CleanStr "great" := by
  have h := normalize_never_raises_lowercase_punctfree (fun s => s) (fun s hs => hs)
  exact ⟨h.1, h.2 "GREAT movie!!" "great" (by decide)⟩

/-- C6: by the time the stopword/length filter runs, apostrophes have been
stripped, so no token can ever equal an apostrophed keep-list entry:
keep-list membership coincides with membership in the apostrophe-free part
of the keep-list. -/
theorem apostrophe_keep_list_entries_never_match (text : String) (t : List Char)
    (ht : t ∈ preFilterTokens text) :
    '\x27' ∉ t ∧
      (String.mk t ∈ words_to_keep ↔ String.mk t ∈ words_to_keep_no_apostrophe) := by
  have hnoap : '\x27' ∉ t := by
    intro hmem
    exact (preFilterTokens_clean text t ht _ hmem).2 (by decide)
  refine ⟨hnoap, ?_, ?_⟩
  · intro hk
    refine List.mem_filter.2 ⟨hk, ?_⟩
    exact decide_eq_true hnoap
  · exact fun hk => List.mem_of_mem_filter hk

/-- C6 witness: the unexpanded contraction `"isn't"` reaches the filter as
the token `isnt`, which is apostrophe-free and can only match the
no-apostrophe keep-list entries. -/
theorem apostrophe_keep_list_entries_never_match_witness :
    '\x27' ∉ ['i', 's', 'n', 't'] ∧
      (String.mk ['i', 's', 'n', 't'] ∈ words_to_keep ↔
        String.mk ['i', 's', 'n', 't'] ∈ words_to_keep_no_apostrophe) :=
  apostrophe_keep_list_entries_never_match "isn\x27t" ['i', 's', 'n', 't']
    (by decide)

/-- C8: the counter and the report log stay in lockstep.  The counter never
decreases; every accepted submission appends exactly one row and increments
the counter exactly once, with the insert traced before the increment; a
rejected submission leaves the state untouched; and across any batch of
submissions a state whose counter equals its row count keeps that
property. -/
theorem counter_and_report_log_lockstep (deliver : List Report → Bool)
    (now : Nat) (st : DBState) (req : BadPredictionRequest) :
    st.report_count ≤ (report_bad_prediction deliver now st req).state.report_count ∧
    (∀ resp, (report_bad_prediction deliver now st req).result = .ok resp →
      (report_bad_prediction deliver now st req).state.report_count =
        st.report_count + 1 ∧
      (report_bad_prediction deliver now st req).state.reports =
        st.reports ++ [acceptedRow st req now] ∧
      ∃ rest, (report_bad_prediction deliver now st req).trace =
          .insert (st.reports.length + 1) :: .increment (st.report_count + 1) :: rest ∧
        ∀ e ∈ rest, e.isInsert = false ∧ e.isIncrement = false) ∧
    (∀ err, (report_bad_prediction deliver now st req).result = .error err →
      (report_bad_prediction deliver now st req).state = st ∧
      (report_bad_prediction deliver now st req).trace = []) ∧
    ∀ (batch : List (BadPredictionRequest × Nat)) (st0 : DBState),
      st0.report_count = st0.reports.length →
      (runBatch deliver batch st0).report_count =
        (runBatch deliver batch st0).reports.length := by
  by_cases hv : validReq req
  · obtain ⟨hcount, hreports, htrace, resp, hres, _, _⟩ :=
      submit_accepted_shape deliver now st req hv
    refine ⟨?_, ?_, ?_, runBatch_lockstep deliver⟩
    · rw [hcount]; exact Nat.le_succ _
    · intro resp' _
      exact ⟨hcount, hreports, htrace⟩
    · intro err herr
      rw [hres] at herr
      cases herr
  · obtain ⟨e, he, heq⟩ := submit_invalid deliver now st req hv
    refine ⟨?_, ?_, ?_, runBatch_lockstep deliver⟩
    · rw [heq]
    · intro resp hres
      rw [heq] at hres
      cases hres
    · intro err _
      rw [heq]
      exact ⟨rfl, rfl⟩

/-- C8 witness: the first accepted report on a fresh database takes the
counter from 0 to 1. -/
theorem counter_and_report_log_lockstep_witness :
    init_database.report_count ≤
      (report_bad_prediction (fun _ => true) 7 init_database
        ⟨"w", "négatif", 1⟩).state.report_count ∧
    (report_bad_prediction (fun _ => true) 7 init_database
      ⟨"w", "négatif", 1⟩).state.report_count = init_database.report_count + 1 := by
  have h := counter_and_report_log_lockstep (fun _ => true) 7 init_database
    ⟨"w", "négatif", 1⟩
  refine ⟨h.1, ?_⟩
  exact (h.2.1 ⟨true, "Signalement enregistré (1/3 avant envoi email)", 1,
    some false⟩ (by decide)).1

/-- C9 counterexample: with six rows sharing one timestamp (reports arriving
within the store's one-second timestamp resolution), the trigger hands the
notifier the three oldest-inserted rows; none of the three most recently
persisted rows (ids 4, 5, 6 — id 6 being the row persisted by this very
submission) is among them, refuting the claim that the handed reports are
exactly the 3 most recently persisted. -/
theorem equal_timestamp_trigger_hands_oldest_reports :
    (notifyCalls (report_bad_prediction (fun _ => true) 0 tieState tieReq).trace).map
      Prod.fst = [[tieReport 1, tieReport 2, tieReport 3]] ∧
    (report_bad_prediction (fun _ => true) 0 tieState tieReq).state.reports =
      [tieReport 1, tieReport 2, tieReport 3, tieReport 4, tieReport 5,
        ⟨6, "tie", "positif", 1, 0⟩] ∧
    (⟨6, "tie", "positif", 1, 0⟩ : Report) ∉
      [tieReport 1, tieReport 2, tieReport 3] ∧
    tieReport 5 ∉ [tieReport 1, tieReport 2, tieReport 3] ∧
    tieReport 4 ∉ [tieReport 1, tieReport 2, tieReport 3] := by decide

/-- C9 amended: the trigger hands the notifier the first 3 rows of the log
sorted by timestamp descending with ties in insertion order (the order the
`idx_timestamp` index yields); when timestamps strictly increase with
insertion order this is exactly the 3 most recently persisted reports,
most recent first. -/
theorem trigger_hands_three_most_recent_when_timestamps_increase
    (deliver : List Report → Bool) (now : Nat) (st : DBState)
    (req : BadPredictionRequest) (hv : validReq req)
    (h3 : (st.report_count + 1) % 3 = 0)
    (hts : (st.reports ++ [acceptedRow st req now]).Pairwise
      (fun a b => a.timestamp < b.timestamp)) :
    (notifyCalls (report_bad_prediction deliver now st req).trace).map Prod.fst =
      [(st.reports ++ [acceptedRow st req now]).reverse.take 3] := by
  have hrec : get_recent_bad_predictions (postCountState st req now) 3 =
      (st.reports ++ [acceptedRow st req now]).reverse.take 3 := by
    unfold get_recent_bad_predictions postCountState
    rw [orderBy_of_strictly_increasing _ hts]
  rw [submit_trigger deliver now st req hv h3]
  split
  · rw [hrec]
    rfl
  · rw [hrec]
    rfl

/-- C9 amended witness: a third report at timestamp 3 on a log with
timestamps 1 and 2 hands the notifier the three rows newest-first. -/
theorem trigger_hands_three_most_recent_when_timestamps_increase_witness :
    (notifyCalls (report_bad_prediction (fun _ => true) 3 monoState
      monoReq).trace).map Prod.fst =
      [(monoState.reports ++ [acceptedRow monoState monoReq 3]).reverse.take 3] :=
  trigger_hands_three_most_recent_when_timestamps_increase (fun _ => true) 3
    monoState monoReq (by decide) (by decide) (by decide)

end SentimentsAnalysis
